import Mathlib

/-!
Shallow embedding of the ReadingLists repository (src/ReadingLists/gui.py,
src/ReadingLists/main.py): a tkinter form with two modes (Read / To Be Read)
that appends validated book records to CSV files.

Modelling conventions:
* Widget values (entries, StringVars, IntVars) become fields of AppState.
  The StringVars type_var and month_var live on the BookTracker object and
  survive mode switches; entry widgets and genre IntVars are recreated by
  each render, so the render functions reset the corresponding fields.
* The attributes self.rating and self.genre_vars persist on the Python
  object once Read mode has been shown, even after a mode switch destroys
  the rating Entry widget.  hasRatingAttr / hasGenreAttr model the two
  hasattr checks in clear_entries; calling delete on an Entry whose widget
  was destroyed by clear_frame raises tkinter.TclError, which clear_entries
  does not catch, so the model of clear_entries reports a success flag and
  applies only the updates performed before the raise.
* A CSV file is modelled as Option (List Row): none when the file does not
  exist, some rows for its logical rows (csv.writer quoting is below the
  level of any claim, which all speak of logical fields).
* I/O failure inside save_csv is injected through an ioErr : Option String
  parameter: some e means the write raises an exception rendered as e, and
  the file is unchanged; none means the write succeeds.
* Python float(str) is modelled by pyFloat? over ℚ, with distinct results
  for the infinities and nan (accepted spellings inf, infinity, nan, case-insensitive,
  with optional sign).  PEP 515 underscores between digits are not modelled;
  the strings reaching float() here were already stripped, so surrounding
  whitespace is not re-handled; the decimal value is taken exactly over ℚ,
  without the IEEE 754 rounding a real float() performs.  Python str.strip
  is modelled by pyStrip.
-/

namespace ReadingLists

/-- A logical CSV row: the list of field strings handed to csv.writer.writerow. -/
abbrev Row := List String

/-- The two form modes selected by the top radio buttons. -/
inductive Mode where
  | read
  | tbr
deriving DecidableEq

/-- Foreground colour of the status label. -/
inductive Color where
  | red
  | green
deriving DecidableEq

/-- The fixed 17-genre vocabulary, in the display order passed to the
checkbox builder in show_read_options. -/
def genres : List String :=
  ["Sci-Fi", "Action", "Fantasy", "Mystery", "Thriller",
   "Horror", "Romance", "Drama", "YA", "Dystopian", "Crime",
   "Biography", "Memoir", "Self-Help", "Health", "Travel",
   "Business"]

/-- The month vocabulary passed to the dropdown builder. -/
def months : List String :=
  ["January", "February", "March", "April", "May", "June",
   "July", "August", "September", "October", "November", "December"]

/-- Header row written to read_books.csv. -/
def readHeader : Row := ["Title", "Author", "Rating", "Type", "Genres", "Month"]

/-- Header row written to tbr.csv. -/
def tbrHeader : Row := ["Title", "Author", "Type"]

/-- Result of Python float(str): a finite rational, an infinity, or nan. -/
inductive PyFloat where
  | finite (q : ℚ)
  | inf
  | ninf
  | nan
deriving DecidableEq

/-- Numeric value of a digit string (most significant first). -/
def digitsToNat (ds : List Char) : ℕ :=
  ds.foldl (fun n c => 10 * n + (c.toNat - Char.toNat '0')) 0

/-- The rational value of a decimal literal with mantissa m and scale k,
that is m times 10 to the k, negated when neg is true.  Built with
Rat.divInt on integer data: the field operations on ℚ are irreducible in
this toolchain and the value must stay evaluable. -/
def decValue (neg : Bool) (m : ℕ) (k : ℤ) : ℚ :=
  let n : ℤ := if neg then -(Int.ofNat m) else Int.ofNat m
  if 0 ≤ k then Rat.divInt (n * Int.ofNat (10 ^ k.toNat)) 1
  else Rat.divInt n (Int.ofNat (10 ^ (-k).toNat))

/-- Parse the digits of an exponent, after an optional sign; the whole rest
of the input must be consumed. -/
def expDigits (sign : Bool) (r : List Char) : Option ℤ :=
  let ds := r.takeWhile Char.isDigit
  if ds.isEmpty ∨ r.dropWhile Char.isDigit ≠ [] then none
  else some (if sign then -(digitsToNat ds : ℤ) else (digitsToNat ds : ℤ))

/-- Parse an optional exponent part (e or E, optional sign, digits). -/
def parseExp : List Char → Option ℤ
  | [] => some 0
  | c :: rest =>
    if c = 'e' ∨ c = 'E' then
      match rest with
      | '+' :: r => expDigits false r
      | '-' :: r => expDigits true r
      | r => expDigits false r
    else none

/-- Parse an unsigned decimal literal: digits, optional point with digits,
optional exponent; at least one mantissa digit is required.  Returns the
mantissa digits value m and the scale k (exponent minus number of fraction
digits), so that the denoted value is m times 10 to the k. -/
def parseDecimal (cs : List Char) : Option (ℕ × ℤ) :=
  let ds1 := cs.takeWhile Char.isDigit
  let rest1 := cs.dropWhile Char.isDigit
  let fracRest : List Char × List Char :=
    match rest1 with
    | '.' :: r => (r.takeWhile Char.isDigit, r.dropWhile Char.isDigit)
    | _ => ([], rest1)
  if ds1.isEmpty ∧ fracRest.1.isEmpty then none
  else
    match parseExp fracRest.2 with
    | some e => some (digitsToNat (ds1 ++ fracRest.1), e - (fracRest.1.length : ℤ))
    | none => none

/-- Model of Python float(str) on an already stripped string: optional sign,
then inf / infinity / nan (case-insensitive) or a decimal literal. -/
def pyFloat? (s : String) : Option PyFloat :=
  let signBody : Bool × List Char :=
    match s.data with
    | '+' :: r => (false, r)
    | '-' :: r => (true, r)
    | r => (false, r)
  let neg := signBody.1
  let low := signBody.2.map Char.toLower
  if low = "inf".data ∨ low = "infinity".data then
    some (if neg then PyFloat.ninf else PyFloat.inf)
  else if low = "nan".data then some PyFloat.nan
  else
    match parseDecimal signBody.2 with
    | some mk => some (PyFloat.finite (decValue neg mk.1 mk.2))
    | none => none

/-- The range test 0 <= rating_value <= 10 of save_read_book; a chained
comparison against inf, -inf or nan is false in Python. -/
def floatInRange : PyFloat → Bool
  | PyFloat.finite q => decide (0 ≤ q) && decide (q ≤ 10)
  | _ => false

/-- The rating acceptance test of save_read_book: float(rating) succeeds and
the value passes the range test (otherwise ValueError is caught). -/
def acceptRating (r : String) : Bool :=
  match pyFloat? r with
  | some v => floatInRange v
  | none => false

/-- Model of the Python join of the selected genres with the separator
comma-space, as in the Genres field of the data row. -/
def joinCS : List String → String
  | [] => ""
  | [g] => g
  | g :: gs => g ++ ", " ++ joinCS gs

/-- Prepend a character to the first chunk of a split result. -/
def consHead (c : Char) : List (List Char) → List (List Char)
  | [] => [[c]]
  | t :: ts => (c :: t) :: ts

/-- Split a character list on the two-character separator comma-space. -/
def splitCS : List Char → List (List Char)
  | [] => [[]]
  | ',' :: ' ' :: rest => [] :: splitCS rest
  | c :: rest => consHead c (splitCS rest)

/-- Model of Python str.strip on title, author and rating: drop leading and
trailing whitespace characters in the sense of Char.isWhitespace. -/
def pyStrip (s : String) : String :=
  String.mk (((s.data.dropWhile Char.isWhitespace).reverse.dropWhile
    Char.isWhitespace).reverse)

/-- Character-level join with the comma-space separator, used to relate
joinCS and splitCS. -/
def joinData : List (List Char) → List Char
  | [] => []
  | [x] => x
  | x :: xs => x ++ ',' :: ' ' :: joinData xs

/-- The list of genres encoded by a Genres field: re-splitting the field on
comma-space, with the empty field denoting the empty selection. -/
def decodeGenres (s : String) : List String :=
  if s.data = [] then [] else (splitCS s.data).map (fun l => String.mk l)

/-- The mutable state of the BookTracker form, at the value level. -/
structure AppState where
  mode : Mode
  title : String
  author : String
  rating : String
  type_var : String
  month_var : String
  genre_vars : String → Bool
  message : String
  msgColor : Color
  hasRatingAttr : Bool
  hasGenreAttr : Bool

/-- State after BookTracker.init: type_var empty, month_var January, empty
message label with red foreground, and show_tbr_options rendered. -/
def initState : AppState :=
  { mode := Mode.tbr, title := "", author := "", rating := "",
    type_var := "", month_var := "January", genre_vars := fun _ => false,
    message := "", msgColor := Color.red,
    hasRatingAttr := false, hasGenreAttr := false }

/-- show_read_options: clear_frame destroys the field widgets (keeping the
message label), then fresh title/author/rating entries and fresh genre
IntVars are created; the type radios and month dropdown bind the surviving
type_var and month_var. -/
def show_read_options (s : AppState) : AppState :=
  { s with mode := Mode.read, title := "", author := "", rating := "",
           genre_vars := fun _ => false,
           hasRatingAttr := true, hasGenreAttr := true }

/-- show_tbr_options: clear_frame, then fresh title/author entries and type
radios bound to the surviving type_var.  The rating and genre_vars
attributes are not reassigned, so they keep their previous values (the
rating Entry widget itself, however, is destroyed). -/
def show_tbr_options (s : AppState) : AppState :=
  { s with mode := Mode.tbr, title := "", author := "" }

/-- clear_entries: empty title and author, unset type_var, then delete the
rating entry text if the attribute exists, unset the genre IntVars if that
attribute exists, and reset month_var to January.  If the rating attribute
exists while the current render is not Read mode, its widget was destroyed
by clear_frame and delete raises TclError: the steps after that point do
not run, and the flag is false. -/
def clear_entries (s : AppState) : AppState × Bool :=
  let s1 := { s with title := "", author := "", type_var := "" }
  if s1.hasRatingAttr ∧ s1.mode ≠ Mode.read then (s1, false)
  else
    let s2 := if s1.hasRatingAttr then { s1 with rating := "" } else s1
    let s3 := if s2.hasGenreAttr then { s2 with genre_vars := fun _ => false } else s2
    ({ s3 with month_var := "January" }, true)

/-- A CSV file: none when it does not exist, some rows for its contents. -/
abbrev CsvFile := Option (List Row)

/-- Contents after the write part of save_csv: is_new is (file does not
exist) or (file exists with zero length); if new the header row is written
first, then the data row is appended. -/
def appendCsv (file : CsvFile) (data head : Row) : List Row :=
  match file with
  | none => [head, data]
  | some rows => if rows = [] then [head, data] else rows ++ [data]

/-- save_csv: on success the file gains the rows of appendCsv and the label
shows Saved! in green; an exception e is caught and shown in red as
Error saving file: e, leaving the file unchanged. -/
def save_csv (ioErr : Option String) (file : CsvFile) (data head : Row) :
    CsvFile × String × Color :=
  match ioErr with
  | some e => (file, "Error saving file: " ++ e, Color.red)
  | none => (some (appendCsv file data head), "Saved!", Color.green)

/-- selected_genres: the genres whose IntVar is set, in vocabulary order
(Python dict preserves the insertion order of the vocabulary list). -/
def selectedGenres (s : AppState) : List String :=
  genres.filter s.genre_vars

/-- The data row save_read_book passes to save_csv. -/
def readDataRow (s : AppState) : Row :=
  [pyStrip s.title, pyStrip s.author, pyStrip s.rating, s.type_var,
   joinCS (selectedGenres s), s.month_var]

/-- The data row save_tbr_book passes to save_csv. -/
def tbrDataRow (s : AppState) : Row :=
  [pyStrip s.title, pyStrip s.author, s.type_var]

/-- save_read_book: strip title/author/rating, reject when any of the five
required values is empty, then validate the rating through float and the
range test, then call save_csv on read_books.csv and finally clear_entries
(unconditionally, whether or not save_csv reported an error). -/
def save_read_book (ioErr : Option String) (s : AppState) (file : CsvFile) :
    AppState × CsvFile :=
  if pyStrip s.title = "" ∨ pyStrip s.author = "" ∨ pyStrip s.rating = "" ∨
      s.type_var = "" ∨ s.month_var = "" then
    ({ s with message := "Fill in all fields.", msgColor := Color.red }, file)
  else if acceptRating (pyStrip s.rating) then
    let r := save_csv ioErr file (readDataRow s) readHeader
    ((clear_entries { s with message := r.2.1, msgColor := r.2.2 }).1, r.1)
  else
    ({ s with message := "Rating must be a number between 0 and 10.",
              msgColor := Color.red }, file)

/-- save_tbr_book: strip title/author, reject when title, author or type is
empty, otherwise call save_csv on tbr.csv and finally clear_entries. -/
def save_tbr_book (ioErr : Option String) (s : AppState) (file : CsvFile) :
    AppState × CsvFile :=
  if pyStrip s.title = "" ∨ pyStrip s.author = "" ∨ s.type_var = "" then
    ({ s with message := "Fill in all fields.", msgColor := Color.red }, file)
  else
    let r := save_csv ioErr file (tbrDataRow s) tbrHeader
    ((clear_entries { s with message := r.2.1, msgColor := r.2.2 }).1, r.1)

/-- Iterated successful appends of data rows to one file with one header. -/
def runAppends (head : Row) (file : CsvFile) (datas : List Row) : CsvFile :=
  datas.foldl (fun f d => some (appendCsv f d head)) file

/-- A concrete, fully filled Read-mode state used by witnesses. -/
def duneReadState : AppState :=
  { mode := Mode.read, title := "Dune", author := "Frank Herbert", rating := "9",
    type_var := "Series", month_var := "March",
    genre_vars := fun g => g == "Sci-Fi",
    message := "", msgColor := Color.red,
    hasRatingAttr := true, hasGenreAttr := true }

/-- A Read-mode state with no genre selected, used by witnesses. -/
def plainReadState : AppState :=
  { duneReadState with genre_vars := fun _ => false }

/-- A To-Be-Read submission with an empty author entry, used by witnesses. -/
def tbrMissingState : AppState :=
  { initState with title := "Dune", type_var := "Series" }

/-- State reached by: start, switch to Read mode, pick month March and the
Sci-Fi genre, switch back to To Be Read, fill title, author and type. -/
def tbrAfterReadState : AppState :=
  { show_tbr_options
      { show_read_options initState with
          month_var := "March", genre_vars := fun g => g == "Sci-Fi" } with
    title := "Dune", author := "Frank Herbert", type_var := "Series" }

/-- The acceptance predicate in the words of the spec: the rating text
parses as a real number r with 0 <= r <= 10 (the infinities and nan are not
real numbers). -/
def specRatingAccepted (r : String) : Prop :=
  ∃ q : ℚ, pyFloat? r = some (PyFloat.finite q) ∧ 0 ≤ q ∧ q ≤ 10

/-!
Helper lemmas about splitting and joining on the comma-space separator,
and about the building blocks of the form transitions.
-/

theorem splitCS_nil : splitCS [] = [[]] := rfl

theorem splitCS_cons_sep (rest : List Char) :
    splitCS (',' :: ' ' :: rest) = [] :: splitCS rest := rfl

theorem splitCS_cons (c : Char) (rest : List Char) (hc : c ≠ ',') :
    splitCS (c :: rest) = consHead c (splitCS rest) := by
  rw [splitCS.eq_def]
  split
  all_goals first
    | exact absurd rfl hc
    | (rename_i heq; exact absurd heq (List.cons_ne_nil c rest))
    | (rename_i heq; injection heq with h1 h2; exact absurd h1 hc)
    | (rename_i heq; injection heq with h1 h2; subst h1; subst h2; rfl)

theorem splitCS_no_comma (cs : List Char) (h : ',' ∉ cs) : splitCS cs = [cs] := by
  induction cs with
  | nil => exact splitCS_nil
  | cons c rest ih =>
    have hc : c ≠ ',' := fun e => h (by simp [e])
    have ih2 : splitCS rest = [rest] := ih (fun m => h (List.mem_cons_of_mem _ m))
    rw [splitCS_cons c rest hc, ih2]
    rfl

theorem splitCS_sep (xs ys : List Char) (h : ',' ∉ xs) :
    splitCS (xs ++ ',' :: ' ' :: ys) = xs :: splitCS ys := by
  induction xs with
  | nil => exact splitCS_cons_sep ys
  | cons c xs ih =>
    have hc : c ≠ ',' := fun e => h (by simp [e])
    have ih2 := ih (fun m => h (List.mem_cons_of_mem _ m))
    rw [List.cons_append, splitCS_cons c _ hc, ih2]
    rfl

theorem joinCS_data (l : List String) :
    (joinCS l).data = joinData (l.map String.data) := by
  induction l with
  | nil => rfl
  | cons g gs ih =>
    cases gs with
    | nil => rfl
    | cons g2 gs2 =>
      show (g ++ ", " ++ joinCS (g2 :: gs2)).data = _
      simp only [String.data_append, ih]
      simp [joinData, List.append_assoc]

theorem joinData_ne_nil (x : List Char) (xs : List (List Char)) (hx : x ≠ []) :
    joinData (x :: xs) ≠ [] := by
  cases xs with
  | nil => exact hx
  | cons y ys =>
    show x ++ ',' :: ' ' :: joinData (y :: ys) ≠ []
    intro e
    exact hx (List.append_eq_nil.mp e).1

theorem splitCS_joinData (ls : List (List Char)) (hc : ∀ l ∈ ls, ',' ∉ l)
    (hne : ls ≠ []) : splitCS (joinData ls) = ls := by
  induction ls with
  | nil => exact absurd rfl hne
  | cons x xs ih =>
    cases xs with
    | nil => exact splitCS_no_comma x (hc x (by simp))
    | cons y ys =>
      show splitCS (x ++ ',' :: ' ' :: joinData (y :: ys)) = _
      rw [splitCS_sep _ _ (hc x (by simp))]
      rw [ih (fun l hl => hc l (by simp [hl])) (by simp)]

theorem string_mk_data (s : String) : String.mk s.data = s := by
  cases s
  rfl

theorem decodeGenres_joinCS (l : List String)
    (h : ∀ g ∈ l, g.data ≠ [] ∧ ',' ∉ g.data) :
    decodeGenres (joinCS l) = l := by
  cases l with
  | nil => rfl
  | cons g gs =>
    have hdata := joinCS_data (g :: gs)
    have hne : (joinCS (g :: gs)).data ≠ [] := by
      rw [hdata]
      exact joinData_ne_nil _ _ ((h g (by simp)).1)
    unfold decodeGenres
    rw [if_neg hne, hdata]
    rw [splitCS_joinData _ (by
      intro l hl
      rcases List.mem_map.mp hl with ⟨g2, hg2, rfl⟩
      exact (h g2 hg2).2) (by simp)]
    rw [List.map_map,
      show ((fun l => String.mk l) ∘ String.data) = id from funext string_mk_data,
      List.map_id]

theorem genres_entries_ok : ∀ g ∈ genres, g.data ≠ [] ∧ ',' ∉ g.data := by decide

theorem runAppends_nonempty (head : Row) (datas : List Row) :
    ∀ (r : Row) (rs : List Row),
      runAppends head (some (r :: rs)) datas = some (r :: (rs ++ datas)) := by
  induction datas with
  | nil => intro r rs; simp [runAppends]
  | cons d ds ih =>
    intro r rs
    show runAppends head (some (appendCsv (some (r :: rs)) d head)) ds = _
    have : appendCsv (some (r :: rs)) d head = r :: (rs ++ [d]) := by
      simp [appendCsv]
    rw [this, ih]
    simp

theorem clear_entries_read (s : AppState) (hmode : s.mode = Mode.read)
    (hr : s.hasRatingAttr = true) (hg : s.hasGenreAttr = true) :
    (clear_entries s).1.title = "" ∧ (clear_entries s).1.author = "" ∧
    (clear_entries s).1.type_var = "" ∧ (clear_entries s).1.rating = "" ∧
    (∀ g, (clear_entries s).1.genre_vars g = false) ∧
    (clear_entries s).1.month_var = "January" ∧
    (clear_entries s).1.message = s.message ∧
    (clear_entries s).1.msgColor = s.msgColor ∧
    (clear_entries s).2 = true := by
  simp [clear_entries, hmode, hr, hg]

theorem clear_entries_common (s : AppState) :
    (clear_entries s).1.title = "" ∧ (clear_entries s).1.author = "" ∧
    (clear_entries s).1.type_var = "" ∧
    (clear_entries s).1.message = s.message ∧
    (clear_entries s).1.msgColor = s.msgColor := by
  obtain ⟨mode, title, author, rating, tv, mv, gv, msg, col, hra, hga⟩ := s
  cases hra <;> cases hga <;> cases mode <;> exact ⟨rfl, rfl, rfl, rfl, rfl⟩

theorem clear_entries_stale (s : AppState) (hr : s.hasRatingAttr = true)
    (hm : s.mode ≠ Mode.read) :
    clear_entries s = ({ s with title := "", author := "", type_var := "" }, false) := by
  obtain ⟨mode, title, author, rating, tv, mv, gv, msg, col, hra, hga⟩ := s
  subst hr
  cases mode with
  | read => exact absurd rfl hm
  | tbr => rfl

theorem clear_entries_no_rating (s : AppState) (hr : s.hasRatingAttr = false) :
    (clear_entries s).1.month_var = "January" ∧ (clear_entries s).2 = true := by
  obtain ⟨mode, title, author, rating, tv, mv, gv, msg, col, hra, hga⟩ := s
  subst hr
  cases hga <;> cases mode <;> exact ⟨rfl, rfl⟩

theorem save_tbr_book_valid (io : Option String) (s : AppState) (file : CsvFile)
    (h1 : pyStrip s.title ≠ "") (h2 : pyStrip s.author ≠ "")
    (h3 : s.type_var ≠ "") :
    save_tbr_book io s file =
      ((clear_entries { s with
          message := (save_csv io file (tbrDataRow s) tbrHeader).2.1,
          msgColor := (save_csv io file (tbrDataRow s) tbrHeader).2.2 }).1,
       (save_csv io file (tbrDataRow s) tbrHeader).1) := by
  unfold save_tbr_book
  rw [if_neg (by simp [h1, h2, h3])]

/-!
The claims.
-/

/-- C4: for every sequence of append calls to the same file, the header row
is written exactly once, before the first data row, and only when the file
does not exist or exists with zero length; a later append to a non-empty
file writes only the data row and never repeats the header. -/
theorem header_written_once (head : Row) (datas : List Row) (hne : datas ≠ []) :
    runAppends head none datas = some (head :: datas) ∧
    runAppends head (some []) datas = some (head :: datas) ∧
    ∀ (rows : List Row) (d : Row), rows ≠ [] →
      appendCsv (some rows) d head = rows ++ [d] := by
  refine ⟨?_, ?_, ?_⟩
  · cases datas with
    | nil => exact absurd rfl hne
    | cons d ds =>
      show runAppends head (some (appendCsv none d head)) ds = _
      have : appendCsv none d head = head :: ([d] : List Row) := rfl
      rw [this, runAppends_nonempty]
      simp
  · cases datas with
    | nil => exact absurd rfl hne
    | cons d ds =>
      show runAppends head (some (appendCsv (some []) d head)) ds = _
      have : appendCsv (some []) d head = head :: ([d] : List Row) := rfl
      rw [this, runAppends_nonempty]
      simp
  · intro rows d h
    cases rows with
    | nil => exact absurd rfl h
    | cons r rs => simp [appendCsv]

/-- Witness for C4 at a concrete one-row append sequence. -/
theorem header_written_once_witness :
    ([["Dune", "Frank Herbert", "9", "Series", "Sci-Fi", "March"]] : List Row) ≠ [] ∧
    (runAppends readHeader none [["Dune", "Frank Herbert", "9", "Series", "Sci-Fi", "March"]] =
        some (readHeader :: [["Dune", "Frank Herbert", "9", "Series", "Sci-Fi", "March"]]) ∧
      runAppends readHeader (some []) [["Dune", "Frank Herbert", "9", "Series", "Sci-Fi", "March"]] =
        some (readHeader :: [["Dune", "Frank Herbert", "9", "Series", "Sci-Fi", "March"]]) ∧
      ∀ (rows : List Row) (d : Row), rows ≠ [] →
        appendCsv (some rows) d readHeader = rows ++ [d]) :=
  ⟨by decide,
   header_written_once readHeader
     [["Dune", "Frank Herbert", "9", "Series", "Sci-Fi", "March"]] (by decide)⟩

/-- C7: every To-Be-Read submission with an empty trimmed title, empty
trimmed author or unset type is rejected with the message Fill in all
fields., no file is touched for any I/O outcome, and the whole state except
the message is retained. -/
theorem tbr_missing_field_rejected (io : Option String) (s : AppState)
    (file : CsvFile)
    (h : pyStrip s.title = "" ∨ pyStrip s.author = "" ∨ s.type_var = "") :
    save_tbr_book io s file =
      ({ s with message := "Fill in all fields.", msgColor := Color.red }, file) := by
  unfold save_tbr_book
  rw [if_pos h]

/-- Witness for C7: the spec end-to-end example of a To-Be-Read submission
with an empty author. -/
theorem tbr_missing_field_rejected_witness :
    (pyStrip tbrMissingState.title = "" ∨ pyStrip tbrMissingState.author = "" ∨
      tbrMissingState.type_var = "") ∧
    save_tbr_book none tbrMissingState none =
      ({ tbrMissingState with message := "Fill in all fields.",
                              msgColor := Color.red }, none) :=
  ⟨by decide, tbr_missing_field_rejected none tbrMissingState none (by decide)⟩

/-- C8: after toggling Read, To Be Read, Read, the rating entry and every
genre checkbox are at their defaults (and so are title and author); indeed
every render of Read mode recreates them fresh. -/
theorem toggle_resets_read_fields (s : AppState) :
    (show_read_options (show_tbr_options (show_read_options s))).rating = "" ∧
    (∀ g, (show_read_options (show_tbr_options (show_read_options s))).genre_vars g = false) ∧
    (show_read_options (show_tbr_options (show_read_options s))).title = "" ∧
    (show_read_options (show_tbr_options (show_read_options s))).author = "" ∧
    ∀ t : AppState, (show_read_options t).rating = "" ∧
      ∀ g, (show_read_options t).genre_vars g = false :=
  ⟨rfl, fun _ => rfl, rfl, rfl, fun _ => ⟨rfl, fun _ => rfl⟩⟩

/-- C9: both mode transitions leave the stored type selection and month
selection unchanged, because type_var and month_var live on the object and
the renders only rebind them to fresh widgets. -/
theorem mode_switch_preserves_type_month (s : AppState) :
    (show_read_options s).type_var = s.type_var ∧
    (show_read_options s).month_var = s.month_var ∧
    (show_tbr_options s).type_var = s.type_var ∧
    (show_tbr_options s).month_var = s.month_var :=
  ⟨rfl, rfl, rfl, rfl⟩

/-- C5 counterexample: a mode transition does not reset the status message
to empty; switching to Read mode with the status Saved! keeps it. -/
theorem mode_switch_keeps_message_cex :
    (show_read_options
        { initState with message := "Saved!", msgColor := Color.green }).message ≠ "" := by
  decide

/-- C5 (amended): setMode discards the current field widgets and renders
the field set for the newly selected mode, but leaves the status message
unchanged: clear_frame skips the message label and nothing resets its
text. -/
theorem mode_switch_renders_fields (s : AppState) :
    (show_read_options s).message = s.message ∧
    (show_read_options s).msgColor = s.msgColor ∧
    (show_tbr_options s).message = s.message ∧
    (show_tbr_options s).msgColor = s.msgColor ∧
    (show_read_options s).mode = Mode.read ∧
    (show_tbr_options s).mode = Mode.tbr ∧
    (show_read_options s).title = "" ∧ (show_read_options s).author = "" ∧
    (show_read_options s).rating = "" ∧
    (∀ g, (show_read_options s).genre_vars g = false) ∧
    (show_tbr_options s).title = "" ∧ (show_tbr_options s).author = "" :=
  ⟨rfl, rfl, rfl, rfl, rfl, rfl, rfl, rfl, rfl, fun _ => rfl, rfl, rfl⟩

theorem acceptRating_iff_spec (r : String) :
    acceptRating r = true ↔ specRatingAccepted r := by
  unfold acceptRating specRatingAccepted
  cases hp : pyFloat? r with
  | none => simp
  | some v =>
    cases v with
    | finite q => simp [floatInRange]
    | inf => simp [floatInRange]
    | ninf => simp [floatInRange]
    | nan => simp [floatInRange]

theorem save_read_book_valid (io : Option String) (s : AppState) (file : CsvFile)
    (h1 : pyStrip s.title ≠ "") (h2 : pyStrip s.author ≠ "")
    (h3 : pyStrip s.rating ≠ "") (h4 : s.type_var ≠ "") (h5 : s.month_var ≠ "")
    (hacc : acceptRating (pyStrip s.rating) = true) :
    save_read_book io s file =
      ((clear_entries { s with
          message := (save_csv io file (readDataRow s) readHeader).2.1,
          msgColor := (save_csv io file (readDataRow s) readHeader).2.2 }).1,
       (save_csv io file (readDataRow s) readHeader).1) := by
  unfold save_read_book
  rw [if_neg (by simp [h1, h2, h3, h4, h5]), if_pos hacc]

theorem save_read_book_bad_rating (io : Option String) (s : AppState)
    (file : CsvFile)
    (h1 : pyStrip s.title ≠ "") (h2 : pyStrip s.author ≠ "")
    (h3 : pyStrip s.rating ≠ "") (h4 : s.type_var ≠ "") (h5 : s.month_var ≠ "")
    (hacc : acceptRating (pyStrip s.rating) = false) :
    save_read_book io s file =
      ({ s with message := "Rating must be a number between 0 and 10.",
                msgColor := Color.red }, file) := by
  unfold save_read_book
  rw [if_neg (by simp [h1, h2, h3, h4, h5]), if_neg (by simp [hacc])]

/-- C2: for every Read-mode submission with non-empty stripped title, author
and rating text and chosen type and month, the rating is accepted exactly
when it parses to a real number in the closed interval from 0 to 10;
otherwise the message is Rating must be a number between 0 and 10. and the
file is left untouched, for any I/O outcome. -/
theorem rating_validation (io : Option String) (s : AppState) (file : CsvFile)
    (h1 : pyStrip s.title ≠ "") (h2 : pyStrip s.author ≠ "")
    (h3 : pyStrip s.rating ≠ "") (h4 : s.type_var ≠ "") (h5 : s.month_var ≠ "") :
    (acceptRating (pyStrip s.rating) = true ↔ specRatingAccepted (pyStrip s.rating)) ∧
    (acceptRating (pyStrip s.rating) = false →
      save_read_book io s file =
        ({ s with message := "Rating must be a number between 0 and 10.",
                  msgColor := Color.red }, file)) ∧
    (acceptRating (pyStrip s.rating) = true →
      (save_read_book io s file).2 = (save_csv io file (readDataRow s) readHeader).1) := by
  refine ⟨acceptRating_iff_spec _, ?_, ?_⟩
  · intro hf
    exact save_read_book_bad_rating io s file h1 h2 h3 h4 h5 hf
  · intro ht
    rw [save_read_book_valid io s file h1 h2 h3 h4 h5 ht]

/-- Witness for C2 at the spec example rating 7.5. -/
theorem rating_validation_witness :
    pyStrip ({ duneReadState with rating := "7.5" } : AppState).title ≠ "" ∧
    pyStrip ({ duneReadState with rating := "7.5" } : AppState).author ≠ "" ∧
    pyStrip ({ duneReadState with rating := "7.5" } : AppState).rating ≠ "" ∧
    ({ duneReadState with rating := "7.5" } : AppState).type_var ≠ "" ∧
    ({ duneReadState with rating := "7.5" } : AppState).month_var ≠ "" ∧
    ((acceptRating (pyStrip ({ duneReadState with rating := "7.5" } : AppState).rating) = true ↔
        specRatingAccepted (pyStrip ({ duneReadState with rating := "7.5" } : AppState).rating)) ∧
      (acceptRating (pyStrip ({ duneReadState with rating := "7.5" } : AppState).rating) = false →
        save_read_book none { duneReadState with rating := "7.5" } none =
          ({ ({ duneReadState with rating := "7.5" } : AppState) with
              message := "Rating must be a number between 0 and 10.",
              msgColor := Color.red }, none)) ∧
      (acceptRating (pyStrip ({ duneReadState with rating := "7.5" } : AppState).rating) = true →
        (save_read_book none { duneReadState with rating := "7.5" } none).2 =
          (save_csv none none (readDataRow { duneReadState with rating := "7.5" })
            readHeader).1)) :=
  ⟨by decide, by decide, by decide, by decide, by decide,
   rating_validation none { duneReadState with rating := "7.5" } none
     (by decide) (by decide) (by decide) (by decide) (by decide)⟩

/-- C3: every valid Read submission appends a data row of exactly 6 fields
(the header width), whose Genres field is the selected genres joined by
comma-space in the display order of the 17-genre vocabulary, and decoding
that field returns exactly the selection, a subset of the vocabulary,
including the empty selection. -/
theorem read_row_fields (s : AppState) (file : CsvFile)
    (h1 : pyStrip s.title ≠ "") (h2 : pyStrip s.author ≠ "")
    (h3 : pyStrip s.rating ≠ "") (h4 : s.type_var ≠ "") (h5 : s.month_var ≠ "")
    (hacc : acceptRating (pyStrip s.rating) = true) :
    (save_read_book none s file).2 = some (appendCsv file (readDataRow s) readHeader) ∧
    (readDataRow s).length = readHeader.length ∧
    readHeader.length = 6 ∧
    (readDataRow s).getD 4 "" = joinCS (selectedGenres s) ∧
    decodeGenres ((readDataRow s).getD 4 "") = selectedGenres s ∧
    selectedGenres s ⊆ genres := by
  refine ⟨?_, rfl, rfl, rfl, ?_, ?_⟩
  · rw [save_read_book_valid none s file h1 h2 h3 h4 h5 hacc]
    rfl
  · show decodeGenres (joinCS (selectedGenres s)) = selectedGenres s
    refine decodeGenres_joinCS _ ?_
    intro g hg
    exact genres_entries_ok g (List.mem_of_mem_filter hg)
  · show List.filter s.genre_vars genres ⊆ genres
    exact fun g hg => List.mem_of_mem_filter hg

/-- Witness for C3 at a valid Read submission with the empty genre
selection. -/
theorem read_row_fields_witness :
    pyStrip plainReadState.title ≠ "" ∧ pyStrip plainReadState.author ≠ "" ∧
    pyStrip plainReadState.rating ≠ "" ∧ plainReadState.type_var ≠ "" ∧
    plainReadState.month_var ≠ "" ∧
    acceptRating (pyStrip plainReadState.rating) = true ∧
    ((save_read_book none plainReadState none).2 =
        some (appendCsv none (readDataRow plainReadState) readHeader) ∧
      (readDataRow plainReadState).length = readHeader.length ∧
      readHeader.length = 6 ∧
      (readDataRow plainReadState).getD 4 "" = joinCS (selectedGenres plainReadState) ∧
      decodeGenres ((readDataRow plainReadState).getD 4 "") = selectedGenres plainReadState ∧
      selectedGenres plainReadState ⊆ genres) :=
  ⟨by decide, by decide, by decide, by decide, by decide, by decide,
   read_row_fields plainReadState none
     (by decide) (by decide) (by decide) (by decide) (by decide) (by decide)⟩

/-- C10: the Rating field written for a valid Read submission is the
stripped rating text exactly as entered, not the parsed numeric value; the
inputs 9.0, 07 and 1e1 are all accepted by the numeric validation (parsing
to the numbers 9, 7 and 10) yet are persisted verbatim. -/
theorem rating_persisted_verbatim (io : Option String) (s : AppState)
    (file : CsvFile)
    (h1 : pyStrip s.title ≠ "") (h2 : pyStrip s.author ≠ "")
    (h3 : pyStrip s.rating ≠ "") (h4 : s.type_var ≠ "") (h5 : s.month_var ≠ "")
    (hacc : acceptRating (pyStrip s.rating) = true) :
    (save_read_book io s file).2 = (save_csv io file (readDataRow s) readHeader).1 ∧
    (readDataRow s).getD 2 "" = pyStrip s.rating ∧
    acceptRating "9.0" = true ∧ acceptRating "07" = true ∧ acceptRating "1e1" = true ∧
    pyFloat? "9.0" = some (PyFloat.finite 9) ∧
    pyFloat? "07" = some (PyFloat.finite 7) ∧
    pyFloat? "1e1" = some (PyFloat.finite 10) := by
  refine ⟨?_, rfl, by decide, by decide, by decide, by decide, by decide, by decide⟩
  rw [save_read_book_valid io s file h1 h2 h3 h4 h5 hacc]

/-- Witness for C10 at the rating text 1e1. -/
theorem rating_persisted_verbatim_witness :
    pyStrip ({ duneReadState with rating := "1e1" } : AppState).title ≠ "" ∧
    pyStrip ({ duneReadState with rating := "1e1" } : AppState).author ≠ "" ∧
    pyStrip ({ duneReadState with rating := "1e1" } : AppState).rating ≠ "" ∧
    ({ duneReadState with rating := "1e1" } : AppState).type_var ≠ "" ∧
    ({ duneReadState with rating := "1e1" } : AppState).month_var ≠ "" ∧
    acceptRating (pyStrip ({ duneReadState with rating := "1e1" } : AppState).rating) = true ∧
    ((save_read_book none { duneReadState with rating := "1e1" } none).2 =
        (save_csv none none (readDataRow { duneReadState with rating := "1e1" }) readHeader).1 ∧
      (readDataRow { duneReadState with rating := "1e1" }).getD 2 "" =
        pyStrip ({ duneReadState with rating := "1e1" } : AppState).rating ∧
      acceptRating "9.0" = true ∧ acceptRating "07" = true ∧ acceptRating "1e1" = true ∧
      pyFloat? "9.0" = some (PyFloat.finite 9) ∧
      pyFloat? "07" = some (PyFloat.finite 7) ∧
      pyFloat? "1e1" = some (PyFloat.finite 10)) :=
  ⟨by decide, by decide, by decide, by decide, by decide, by decide,
   rating_persisted_verbatim none { duneReadState with rating := "1e1" } none
     (by decide) (by decide) (by decide) (by decide) (by decide) (by decide)⟩

/-- C1 counterexample: on a valid Read submission whose append fails with
an I/O error, the form does not retain the entered values; the title is
cleared, the rating is cleared, the genre selection is dropped and the
month is reset. -/
theorem io_error_retention_cex :
    (save_read_book (some "disk full") duneReadState none).1.title ≠ duneReadState.title ∧
    (save_read_book (some "disk full") duneReadState none).1.rating = "" ∧
    (save_read_book (some "disk full") duneReadState none).1.genre_vars "Sci-Fi" = false ∧
    (save_read_book (some "disk full") duneReadState none).1.month_var = "January" := by
  decide

/-- C1 (amended): on every submission, Read or To-Be-Read, whose validation
succeeds but whose append fails with an I/O error, the error is reported as
red status text containing the underlying error description and no row is
appended, but the entered field values are not retained: clear_entries runs
unconditionally after save_csv, always clearing title, author and type; a
Read-mode save also empties the rating, unsets every genre checkbox and
resets the month to January; a To-Be-Read save with no prior Read visit
resets the month to January; a To-Be-Read save after a prior Read visit
aborts clearing at the destroyed rating entry (TclError), so the stale
month and genre selections are kept. -/
theorem io_error_reports_and_clears (e : String) (s : AppState) (file : CsvFile) :
    (s.mode = Mode.read → s.hasRatingAttr = true → s.hasGenreAttr = true →
      pyStrip s.title ≠ "" → pyStrip s.author ≠ "" → pyStrip s.rating ≠ "" →
      s.type_var ≠ "" → s.month_var ≠ "" →
      acceptRating (pyStrip s.rating) = true →
      (save_read_book (some e) s file).2 = file ∧
      (save_read_book (some e) s file).1.message = "Error saving file: " ++ e ∧
      (save_read_book (some e) s file).1.msgColor = Color.red ∧
      (save_read_book (some e) s file).1.title = "" ∧
      (save_read_book (some e) s file).1.author = "" ∧
      (save_read_book (some e) s file).1.rating = "" ∧
      (save_read_book (some e) s file).1.type_var = "" ∧
      (∀ g, (save_read_book (some e) s file).1.genre_vars g = false) ∧
      (save_read_book (some e) s file).1.month_var = "January") ∧
    (pyStrip s.title ≠ "" → pyStrip s.author ≠ "" → s.type_var ≠ "" →
      (save_tbr_book (some e) s file).2 = file ∧
      (save_tbr_book (some e) s file).1.message = "Error saving file: " ++ e ∧
      (save_tbr_book (some e) s file).1.msgColor = Color.red ∧
      (save_tbr_book (some e) s file).1.title = "" ∧
      (save_tbr_book (some e) s file).1.author = "" ∧
      (save_tbr_book (some e) s file).1.type_var = "" ∧
      (s.hasRatingAttr = false →
        (save_tbr_book (some e) s file).1.month_var = "January") ∧
      (s.hasRatingAttr = true → s.mode ≠ Mode.read →
        (save_tbr_book (some e) s file).1.month_var = s.month_var ∧
        ∀ g, (save_tbr_book (some e) s file).1.genre_vars g = s.genre_vars g)) := by
  constructor
  · intro hmode hr hg h1 h2 h3 h4 h5 hacc
    rw [save_read_book_valid (some e) s file h1 h2 h3 h4 h5 hacc]
    obtain ⟨ht, ha, hty, hrat, hgen, hmon, hmsg, hcol, hflag⟩ :=
      clear_entries_read
        { s with message := "Error saving file: " ++ e, msgColor := Color.red }
        hmode hr hg
    exact ⟨rfl, hmsg, hcol, ht, ha, hrat, hty, hgen, hmon⟩
  · intro h1 h2 h3
    rw [save_tbr_book_valid (some e) s file h1 h2 h3]
    obtain ⟨ct, ca, cty, cmsg, ccol⟩ :=
      clear_entries_common
        { s with message := "Error saving file: " ++ e, msgColor := Color.red }
    refine ⟨rfl, cmsg, ccol, ct, ca, cty, ?_, ?_⟩
    · intro hr
      exact (clear_entries_no_rating
        { s with message := "Error saving file: " ++ e, msgColor := Color.red } hr).1
    · intro hr hm
      have h := clear_entries_stale
        { s with
            message := (save_csv (some e) file (tbrDataRow s) tbrHeader).2.1,
            msgColor := (save_csv (some e) file (tbrDataRow s) tbrHeader).2.2 }
        hr hm
      rw [h]
      exact ⟨rfl, fun g => rfl⟩

/-- Witness for the amended C1 at a concrete disk-full failure: once for a
Read-mode submission (fields cleared to defaults) and once for a To-Be-Read
submission made after a Read-mode visit (clearing aborts, month and genre
selections stay). -/
theorem io_error_reports_and_clears_witness :
    ((save_read_book (some "disk full") duneReadState none).2 = none ∧
      (save_read_book (some "disk full") duneReadState none).1.message =
        "Error saving file: " ++ "disk full" ∧
      (save_read_book (some "disk full") duneReadState none).1.msgColor = Color.red ∧
      (save_read_book (some "disk full") duneReadState none).1.title = "" ∧
      (save_read_book (some "disk full") duneReadState none).1.author = "" ∧
      (save_read_book (some "disk full") duneReadState none).1.rating = "" ∧
      (save_read_book (some "disk full") duneReadState none).1.type_var = "" ∧
      (∀ g, (save_read_book (some "disk full") duneReadState none).1.genre_vars g = false) ∧
      (save_read_book (some "disk full") duneReadState none).1.month_var = "January") ∧
    ((save_tbr_book (some "disk full") tbrAfterReadState none).2 = none ∧
      (save_tbr_book (some "disk full") tbrAfterReadState none).1.message =
        "Error saving file: " ++ "disk full" ∧
      (save_tbr_book (some "disk full") tbrAfterReadState none).1.msgColor = Color.red ∧
      (save_tbr_book (some "disk full") tbrAfterReadState none).1.title = "" ∧
      (save_tbr_book (some "disk full") tbrAfterReadState none).1.author = "" ∧
      (save_tbr_book (some "disk full") tbrAfterReadState none).1.type_var = "" ∧
      (save_tbr_book (some "disk full") tbrAfterReadState none).1.month_var =
        tbrAfterReadState.month_var ∧
      ∀ g, (save_tbr_book (some "disk full") tbrAfterReadState none).1.genre_vars g =
        tbrAfterReadState.genre_vars g) :=
  ⟨(io_error_reports_and_clears "disk full" duneReadState none).1 rfl rfl rfl
      (by decide) (by decide) (by decide) (by decide) (by decide) (by decide),
   have h := (io_error_reports_and_clears "disk full" tbrAfterReadState none).2
      (by decide) (by decide) (by decide)
   have hstale := h.2.2.2.2.2.2.2 rfl (by decide)
   ⟨h.1, h.2.1, h.2.2.1, h.2.2.2.1, h.2.2.2.2.1, h.2.2.2.2.2.1,
    hstale.1, hstale.2⟩⟩

/-- C6: evaluation of the code at the failing input: a successful
To-Be-Read save performed after a visit to Read mode shows Saved! in
green, but clear_entries raises TclError when deleting the destroyed
rating entry, so the month selection March and the Sci-Fi genre selection
survive instead of being reset to their defaults. -/
theorem tbr_save_after_read_visit_bug :
    (save_tbr_book none tbrAfterReadState none).1.message = "Saved!" ∧
    (save_tbr_book none tbrAfterReadState none).1.msgColor = Color.green ∧
    (save_tbr_book none tbrAfterReadState none).1.month_var = "March" ∧
    (save_tbr_book none tbrAfterReadState none).1.genre_vars "Sci-Fi" = true ∧
    (save_tbr_book none tbrAfterReadState none).2 =
      some [tbrHeader, ["Dune", "Frank Herbert", "Series"]] ∧
    (clear_entries { tbrAfterReadState with
        message := "Saved!", msgColor := Color.green }).2 = false := by
  decide

end ReadingLists
